import Mathlib

/-!
Shallow embedding of the TFMini-Plus I2C driver (files `TFMPI2C.h` and
`TFMPI2C.cpp`).  Pure data manipulation (frame construction, checksum
computation, field decoding, status classification) is translated into
executable Lean functions; the external bus collaborator (the Arduino
`Wire` library) is modelled as an environment record holding the values
its calls return, and the pin-level collaborator used by bus recovery is
modelled as a trace of emitted pin events.
-/

namespace TFMPI2C

/-! ### Status constants, from `TFMPI2C.h` lines 100-113 -/

def TFMP_READY : Nat := 0
def TFMP_SERIAL : Nat := 1
def TFMP_HEADER : Nat := 2
def TFMP_CHECKSUM : Nat := 3
def TFMP_TIMEOUT : Nat := 4
def TFMP_PASS : Nat := 5
def TFMP_FAIL : Nat := 6
def TFMP_I2CREAD : Nat := 7
def TFMP_I2CWRITE : Nat := 8
def TFMP_I2CLENGTH : Nat := 9
def TFMP_WEAK : Nat := 10
def TFMP_STRONG : Nat := 11
def TFMP_FLOOD : Nat := 12
def TFMP_MEASURE : Nat := 13

def TFMP_FRAME_SIZE : Nat := 9
def TFMP_DEFAULT_ADDRESS : Nat := 0x10

/-! ### Command constants, from `TFMPI2C.h` lines 132-153.
    Packed layout (little-endian): byte 0 = reply length, byte 1 =
    command length, byte 2 = opcode, byte 3 = one-byte inline parameter. -/

def SET_SERIAL_MODE : Nat := 0x000A0500
def SET_I2C_MODE : Nat := 0x010A0500
def GET_FIRMWARE_VERSION : Nat := 0x00010407
def SET_FRAME_RATE : Nat := 0x00030606
def STANDARD_FORMAT_CM : Nat := 0x01050505
def STANDARD_FORMAT_MM : Nat := 0x06050505
def SET_BAUD_RATE : Nat := 0x00060808
def ENABLE_OUTPUT : Nat := 0x01070505
def DISABLE_OUTPUT : Nat := 0x00070505
def SET_I2C_ADDRESS : Nat := 0x100B0505
def SOFT_RESET : Nat := 0x00020405
def HARD_RESET : Nat := 0x00100405
def SAVE_SETTINGS : Nat := 0x00110405
def I2C_FORMAT_CM : Nat := 0x01000500
def I2C_FORMAT_MM : Nat := 0x06000500
def TRIGGER_DETECTION : Nat := 0x00040400

/-- The full set of command descriptors defined in `TFMPI2C.h`. -/
def definedCommands : List Nat :=
  [SET_SERIAL_MODE, SET_I2C_MODE, GET_FIRMWARE_VERSION, SET_FRAME_RATE,
   STANDARD_FORMAT_CM, STANDARD_FORMAT_MM, SET_BAUD_RATE, ENABLE_OUTPUT,
   DISABLE_OUTPUT, SET_I2C_ADDRESS, SOFT_RESET, HARD_RESET, SAVE_SETTINGS,
   I2C_FORMAT_CM, I2C_FORMAT_MM, TRIGGER_DETECTION]

/-- Byte `i` of a 32-bit little-endian value, as produced by
    `memcpy( &cmndData[0], &cmnd, 4)` on a little-endian MCU. -/
def byteOf (n i : Nat) : Nat := n / 256 ^ i % 256

/-- Reinterpret a 16-bit unsigned value as a signed `int16_t`
    (the effect of assigning `frame[lo] + (frame[hi] << 8)` to an
    `int16_t` variable). -/
def toInt16 (n : Nat) : Int :=
  if n % 65536 < 32768 then (n % 65536 : Int) else (n % 65536 : Int) - 65536

/-- Arithmetic shift right by 3 bits on a signed value
    (`temp >> 3` in C on an `int16_t` promoted to `int`). -/
def asr3 (x : Int) : Int := Int.fdiv x 8

/-! ### Command frame construction, `TFMPI2C.cpp` lines 194-224 (Step 1
    of `sendCommand`).  The `cmndData` buffer is 8 bytes
    (`TFMP_COMMAND_MAX`), `memset` to zero, the four command bytes are
    copied in little-endian order, byte 0 is overwritten by the header
    0x5A, parameter bytes are copied at offset 3 for the three commands
    that take one, and the checksum of bytes `0 .. cmndLen-2` is stored
    at offset `cmndLen - 1`. -/

def buildCmndData (cmnd param : Nat) : List Nat :=
  let d0 : List Nat :=
    [0x5A, byteOf cmnd 1, byteOf cmnd 2, byteOf cmnd 3, 0, 0, 0, 0]
  let d1 : List Nat :=
    if cmnd = SET_FRAME_RATE then
      (d0.set 3 (byteOf param 0)).set 4 (byteOf param 1)
    else if cmnd = SET_BAUD_RATE then
      ((((d0.set 3 (byteOf param 0)).set 4 (byteOf param 1)).set 5
        (byteOf param 2)).set 6 (byteOf param 3))
    else if cmnd = SET_I2C_ADDRESS then
      d0.set 3 (byteOf param 0)
    else d0
  let cmndLen := byteOf cmnd 1
  let chk := (d1.take (cmndLen - 1)).sum % 256
  d1.set (cmndLen - 1) chk

/-! ### The bus collaborator environment for `sendCommand`. -/

/-- Values returned by the `Wire` collaborator during one `sendCommand`
    exchange: the byte count reported by `Wire.write`, the result code of
    `Wire.endTransmission`, and the bytes delivered by `Wire.read` during
    the reply phase (already cast through `uint8_t`, hence reduced
    mod 256 where used). -/
structure SendEnv where
  writeCount : Nat
  endResult : Nat
  reply : Nat → Nat

/-- Byte `i` of the `reply` buffer after the read loop of `sendCommand`
    (`TFMPI2C.cpp` lines 266-270): the buffer is `memset` to zero and
    bytes `0 .. replyLen-1` are filled from the bus. -/
def replyByte (env : SendEnv) (replyLen i : Nat) : Nat :=
  if i < replyLen then env.reply i % 256 else 0

/-- The checksum accumulator over reply bytes `0 .. replyLen-2`
    (`TFMPI2C.cpp` lines 276-278). -/
def replySum (env : SendEnv) (replyLen : Nat) : Nat :=
  ((List.range (replyLen - 1)).map (replyByte env replyLen)).sum

/-- Result of one `sendCommand` call: the boolean return value, the list
    of assignments made to the shared `status` field (in order), the
    final value of `status` (given its value on entry), the new value of
    the `version` triple when it was overwritten, and whether the reply
    read phase (`Wire.requestFrom` / `Wire.read`) was reached. -/
structure SendResult where
  ret : Bool
  writes : List Nat
  status : Nat
  version : Option (Nat × Nat × Nat)
  readAttempted : Bool
  sent : List Nat

/-! ### `sendCommand`, `TFMPI2C.cpp` lines 186-313. -/

def sendCommand (cmnd param st0 : Nat) (env : SendEnv) : SendResult :=
  let sent := buildCmndData cmnd param
  if env.writeCount ≠ byteOf cmnd 1 then
    ⟨false, [TFMP_I2CLENGTH], TFMP_I2CLENGTH, none, false, sent⟩
  else if env.endResult ≠ 0 then
    ⟨false, [TFMP_I2CWRITE], TFMP_I2CWRITE, none, false, sent⟩
  else if byteOf cmnd 0 = 0 then
    ⟨true, [], st0, none, false, sent⟩
  else if replyByte env (byteOf cmnd 0) (byteOf cmnd 0 - 1) ≠
      replySum env (byteOf cmnd 0) % 256 then
    ⟨false, [TFMP_CHECKSUM], TFMP_CHECKSUM, none, true, sent⟩
  else if cmnd = GET_FIRMWARE_VERSION then
    ⟨true, [], st0,
     some (replyByte env (byteOf cmnd 0) 5, replyByte env (byteOf cmnd 0) 4,
           replyByte env (byteOf cmnd 0) 3), true, sent⟩
  else if (cmnd = SOFT_RESET ∨ cmnd = HARD_RESET ∨ cmnd = SAVE_SETTINGS) ∧
      replyByte env (byteOf cmnd 0) 3 = 1 then
    ⟨false, [TFMP_FAIL], TFMP_FAIL, none, true, sent⟩
  else
    ⟨true, [], st0, none, true, sent⟩

/-! ### `getData`, `TFMPI2C.cpp` lines 88-157. -/

/-- Environment of one `getData` call: the collaborator responses for the
    nested `sendCommand( I2C_FORMAT_CM, 0, addr)` and the stream of bytes
    the bus has available for the 9-byte frame read (`Wire.peek` reports
    no byte exactly when the stream is exhausted). -/
structure GetEnv where
  cmdEnv : SendEnv
  stream : List Nat

/-- Byte `i` of the `frame` buffer after the read loop (`TFMPI2C.cpp`
    lines 107-116): each byte read is cast through `uint8_t`. -/
def frameByte (stream : List Nat) (i : Nat) : Nat := stream.getD i 0 % 256

/-- The checksum accumulator over frame bytes `0 .. 7` (`TFMPI2C.cpp`
    lines 122-124). -/
def frameSum (stream : List Nat) : Nat :=
  ((List.range 8).map (frameByte stream)).sum

/-- Result of one `getData` call: return value, ordered list of `status`
    assignments, final `status`, and the final values of the caller's
    `dist`, `flux`, `temp` output parameters (equal to the values passed
    in when the function returned before writing them). -/
structure GetResult where
  ret : Bool
  writes : List Nat
  status : Nat
  dist : Int
  flux : Int
  temp : Int

def getData (dist0 flux0 temp0 : Int) (env : GetEnv) : GetResult :=
  -- `status = TFMP_READY;` on entry, then `sendCommand( I2C_FORMAT_CM, 0, addr)`
  let s := sendCommand I2C_FORMAT_CM 0 TFMP_READY env.cmdEnv
  if s.ret = false then
    ⟨false, TFMP_READY :: s.writes, s.status, dist0, flux0, temp0⟩
  else if env.stream.length < TFMP_FRAME_SIZE then
    ⟨false, [TFMP_READY, TFMP_I2CREAD], TFMP_I2CREAD, dist0, flux0, temp0⟩
  else if frameSum env.stream % 256 ≠ frameByte env.stream 8 then
    ⟨false, [TFMP_READY, TFMP_CHECKSUM], TFMP_CHECKSUM, dist0, flux0, temp0⟩
  else
    let dist := toInt16 (frameByte env.stream 2 + frameByte env.stream 3 * 256)
    let flux := toInt16 (frameByte env.stream 4 + frameByte env.stream 5 * 256)
    let tempRaw := toInt16 (frameByte env.stream 6 + frameByte env.stream 7 * 256)
    let temp := asr3 tempRaw - 256
    let stC :=
      if dist = -1 then TFMP_WEAK
      else if flux = -1 then TFMP_STRONG
      else if dist = -4 then TFMP_FLOOD
      else TFMP_READY
    ⟨if stC = TFMP_READY then true else false,
     [TFMP_READY, stC], stC, dist, flux, temp⟩

/-! ### Bus recovery, `TFMPI2C.cpp` lines 330-360, as a trace of pin
    events emitted through the pin-level collaborator. -/

inductive PinEvent where
  | mode (pin : Nat) (outputMode : Bool)
  | write (pin : Nat) (level : Bool)
  | delayUs (n : Nat)
  | wireBegin
  deriving DecidableEq, Repr

/-- One iteration of the clock-pulse loop (`TFMPI2C.cpp` lines 339-345),
    repeated `n` times. -/
def clockPulses (clockPin : Nat) : Nat → List PinEvent
  | 0 => []
  | n + 1 =>
      [PinEvent.write clockPin true, PinEvent.delayUs 5,
       PinEvent.write clockPin false, PinEvent.delayUs 5] ++
      clockPulses clockPin n

def recoverI2CBus (dataPin clockPin : Nat) : List PinEvent :=
  [PinEvent.mode dataPin true, PinEvent.write dataPin true,
   PinEvent.mode clockPin true] ++
  clockPulses clockPin 10 ++
  [PinEvent.write dataPin false, PinEvent.delayUs 5,
   PinEvent.write clockPin true, PinEvent.delayUs 2,
   PinEvent.write dataPin true, PinEvent.delayUs 2,
   PinEvent.mode dataPin false, PinEvent.mode clockPin false,
   PinEvent.wireBegin]

/-- The successive levels written to pin `p` along a trace. -/
def writesTo (p : Nat) : List PinEvent → List Bool
  | [] => []
  | PinEvent.write q l :: rest =>
      if q = p then l :: writesTo p rest else writesTo p rest
  | _ :: rest => writesTo p rest

/-- Number of high-to-low transitions in a sequence of written levels. -/
def fallingCount : List Bool → Nat
  | true :: false :: rest => fallingCount (false :: rest) + 1
  | _ :: rest => fallingCount rest
  | [] => 0

/-- The data-line transitions along a trace: for every write to
    `dataPin`, the record (previous data level, new data level, clock
    level at that moment), levels `none` before the first write to the
    respective pin. -/
def dataTransRec (dataPin clockPin : Nat) :
    List PinEvent → Option Bool → Option Bool →
    List (Option Bool × Bool × Option Bool)
  | [], _, _ => []
  | PinEvent.write q l :: rest, sda, scl =>
      let entry := if q = dataPin then [(sda, l, scl)] else []
      let sda' := if q = dataPin then some l else sda
      let scl' := if q = clockPin then some l else scl
      entry ++ dataTransRec dataPin clockPin rest sda' scl'
  | _ :: rest, sda, scl => dataTransRec dataPin clockPin rest sda scl

def dataTrans (dataPin clockPin : Nat) (tr : List PinEvent) :
    List (Option Bool × Bool × Option Bool) :=
  dataTransRec dataPin clockPin tr none none

/-- The last mode (`true` = OUTPUT, `false` = INPUT) pin `p` was set to
    along a trace, if any. -/
def lastMode (p : Nat) (tr : List PinEvent) : Option Bool :=
  (tr.filterMap fun e =>
    match e with
    | PinEvent.mode q m => if q = p then some m else none
    | _ => none).getLast?

/-! ### Helper lemmas -/

lemma frameByte_lt (s : List Nat) (i : Nat) : frameByte s i < 256 :=
  Nat.mod_lt _ (by norm_num)

lemma frameByte_set_of_ne (s : List Nat) (i v j : Nat) (h : i ≠ j) :
    frameByte (s.set i v) j = frameByte s j := by
  simp [frameByte, List.getD_eq_getElem?_getD, List.getElem?_set_ne h]

lemma frameByte_set_self (s : List Nat) (i v : Nat) (hi : i < s.length)
    (hv : v < 256) : frameByte (s.set i v) i = v := by
  simp only [frameByte, List.getD_eq_getElem?_getD]
  rw [List.getElem?_set_self', List.getElem?_eq_getElem hi]
  exact Nat.mod_eq_of_lt hv

lemma frameSum_expand (s : List Nat) :
    frameSum s = frameByte s 0 + (frameByte s 1 + (frameByte s 2 +
      (frameByte s 3 + (frameByte s 4 + (frameByte s 5 +
      (frameByte s 6 + (frameByte s 7 + 0))))))) := rfl

lemma frameSum_set (s : List Nat) (i v : Nat) (hi : i < 8)
    (hlen : 9 ≤ s.length) (hv : v < 256) :
    frameSum (s.set i v) + frameByte s i = frameSum s + v := by
  interval_cases i <;>
    (rw [frameSum_expand, frameSum_expand,
         frameByte_set_self _ _ _ (by omega) hv]
     repeat rw [frameByte_set_of_ne _ _ _ _ (by decide)]
     omega)

set_option maxRecDepth 100000 in
lemma xorBitFacts : ∀ x : Nat, x < 256 → ∀ b : Nat, b < 8 →
    ((x ^^^ 2 ^ b) < 256 ∧
     ((x ^^^ 2 ^ b) + 2 ^ b = x ∨ (x ^^^ 2 ^ b) = x + 2 ^ b)) := by decide

lemma corrupt_checksum_fails (s : List Nat) (i b : Nat) (hi : i < 8)
    (hb : b < 8) (hlen : 9 ≤ s.length)
    (hchk : frameSum s % 256 = frameByte s 8) :
    frameSum (s.set i (frameByte s i ^^^ 2 ^ b)) % 256 ≠
      frameByte (s.set i (frameByte s i ^^^ 2 ^ b)) 8 := by
  have hxor := xorBitFacts (frameByte s i) (frameByte_lt s i) b hb
  have h8 : frameByte (s.set i (frameByte s i ^^^ 2 ^ b)) 8 = frameByte s 8 :=
    frameByte_set_of_ne _ _ _ _ (by omega)
  have h2 := frameSum_set s i (frameByte s i ^^^ 2 ^ b) hi (by omega) hxor.1
  have hp1 : 0 < 2 ^ b := by positivity
  have hp2 : 2 ^ b ≤ 128 := by
    calc 2 ^ b ≤ 2 ^ 7 := Nat.pow_le_pow_right (by norm_num) (by omega)
    _ = 128 := by norm_num
  rw [h8, ← hchk]
  rcases hxor.2 with hc | hc <;> omega

lemma sendCommand_formatCM (env : SendEnv) (hw : env.writeCount = 5)
    (he : env.endResult = 0) :
    sendCommand I2C_FORMAT_CM 0 TFMP_READY env =
      ⟨true, [], TFMP_READY, none, false, buildCmndData I2C_FORMAT_CM 0⟩ := by
  have hb1 : byteOf I2C_FORMAT_CM 1 = 5 := by decide
  have hb0 : byteOf I2C_FORMAT_CM 0 = 0 := by decide
  simp only [sendCommand, hb1, hb0, hw, he]
  norm_num

lemma getData_of_checksum_fail (d0 f0 t0 : Int) (env : GetEnv)
    (hw : env.cmdEnv.writeCount = 5) (he : env.cmdEnv.endResult = 0)
    (hlen : 9 ≤ env.stream.length)
    (hne : frameSum env.stream % 256 ≠ frameByte env.stream 8) :
    getData d0 f0 t0 env =
      ⟨false, [TFMP_READY, TFMP_CHECKSUM], TFMP_CHECKSUM, d0, f0, t0⟩ := by
  simp only [getData, sendCommand_formatCM env.cmdEnv hw he]
  rw [if_neg (by norm_num), if_neg (by simp [TFMP_FRAME_SIZE]; omega),
      if_pos hne]

lemma sendCommand_writes_spec (cmnd param st0 : Nat) (env : SendEnv) :
    ((sendCommand cmnd param st0 env).writes = [] ∧
     (sendCommand cmnd param st0 env).status = st0 ∧
     (sendCommand cmnd param st0 env).ret = true) ∨
    ((sendCommand cmnd param st0 env).writes =
        [(sendCommand cmnd param st0 env).status] ∧
     (sendCommand cmnd param st0 env).ret = false ∧
     (sendCommand cmnd param st0 env).status ∈
       [TFMP_CHECKSUM, TFMP_FAIL, TFMP_I2CWRITE, TFMP_I2CLENGTH]) := by
  simp only [sendCommand]
  split_ifs <;>
    simp [TFMP_CHECKSUM, TFMP_FAIL, TFMP_I2CWRITE, TFMP_I2CLENGTH]

lemma getData_writes_spec (d0 f0 t0 : Int) (env : GetEnv) :
    (getData d0 f0 t0 env).writes.head? = some TFMP_READY ∧
    (getData d0 f0 t0 env).writes.length ≤ 2 ∧
    (getData d0 f0 t0 env).status ≠ TFMP_PASS ∧
    TFMP_PASS ∉ (getData d0 f0 t0 env).writes := by
  rcases sendCommand_writes_spec I2C_FORMAT_CM 0 TFMP_READY env.cmdEnv with
    ⟨hw, hs, hr⟩ | ⟨hw, hr, hs⟩
  · simp only [getData, hr]
    split_ifs <;>
      simp_all [TFMP_READY, TFMP_PASS, TFMP_I2CREAD, TFMP_CHECKSUM,
        TFMP_WEAK, TFMP_STRONG, TFMP_FLOOD]
  · simp only [TFMP_READY] at hw hr hs
    simp only [getData, TFMP_READY, hr]
    norm_num [hw]
    simp only [TFMP_CHECKSUM, TFMP_FAIL, TFMP_I2CWRITE, TFMP_I2CLENGTH,
      List.mem_cons, List.mem_singleton, List.not_mem_nil] at hs
    simp [TFMP_PASS]
    rcases hs with h | h | h | h | h
    · exact ⟨by omega, by omega⟩
    · exact ⟨by omega, by omega⟩
    · exact ⟨by omega, by omega⟩
    · exact ⟨by omega, by omega⟩
    · exact h.elim

/-! ### Claim theorems -/

/-- Claim C5: for a successful GET_FIRMWARE_VERSION exchange whose reply
passes the checksum test, the stored version triple is read from reply
offsets 5, 4, 3 in that order (reversed order is the contract), and the
call returns true. -/
theorem sendCommand_firmware_version_reversed (param st0 : Nat)
    (env : SendEnv) (hw : env.writeCount = 4) (he : env.endResult = 0)
    (hchk : replyByte env 7 6 = replySum env 7 % 256) :
    (sendCommand GET_FIRMWARE_VERSION param st0 env).version =
      some (replyByte env 7 5, replyByte env 7 4, replyByte env 7 3) ∧
    (sendCommand GET_FIRMWARE_VERSION param st0 env).ret = true := by
  have hb1 : byteOf GET_FIRMWARE_VERSION 1 = 4 := by decide
  have hb0 : byteOf GET_FIRMWARE_VERSION 0 = 7 := by decide
  simp only [sendCommand, hb1, hb0, hw, he]
  norm_num [hchk]

/-- Witness for C5: reply bytes at offsets 3, 4, 5 equal to 0x01, 0x02,
0x03 produce the version triple (0x03, 0x02, 0x01). -/
theorem sendCommand_firmware_version_reversed_witness :
    (sendCommand GET_FIRMWARE_VERSION 0 0
        ⟨4, 0, fun i => [90, 1, 4, 1, 2, 3, 101].getD i 0⟩).version =
      some (3, 2, 1) ∧
    (sendCommand GET_FIRMWARE_VERSION 0 0
        ⟨4, 0, fun i => [90, 1, 4, 1, 2, 3, 101].getD i 0⟩).ret = true := by
  have h := sendCommand_firmware_version_reversed 0 0
    ⟨4, 0, fun i => [90, 1, 4, 1, 2, 3, 101].getD i 0⟩ rfl rfl (by decide)
  exact ⟨by rw [h.1]; decide, h.2⟩

/-- Claim C6: in sendCommand, a short write sets the I2C-length error and
returns false, a failed end-of-transmission sets the I2C-write error and
returns false, in both cases without attempting a reply read; and when
both succeed and the declared reply length is zero, sendCommand returns
true immediately without reading a reply. -/
theorem sendCommand_aborts_before_read (cmnd param st0 : Nat)
    (env : SendEnv) :
    (env.writeCount ≠ byteOf cmnd 1 →
      sendCommand cmnd param st0 env =
        ⟨false, [TFMP_I2CLENGTH], TFMP_I2CLENGTH, none, false,
         buildCmndData cmnd param⟩) ∧
    (env.writeCount = byteOf cmnd 1 → env.endResult ≠ 0 →
      sendCommand cmnd param st0 env =
        ⟨false, [TFMP_I2CWRITE], TFMP_I2CWRITE, none, false,
         buildCmndData cmnd param⟩) ∧
    (env.writeCount = byteOf cmnd 1 → env.endResult = 0 →
      byteOf cmnd 0 = 0 →
      sendCommand cmnd param st0 env =
        ⟨true, [], st0, none, false, buildCmndData cmnd param⟩) := by
  refine ⟨fun h1 => ?_, fun h1 h2 => ?_, fun h1 h2 h3 => ?_⟩ <;>
    simp only [sendCommand]
  · rw [if_pos h1]
  · rw [if_neg (fun hne => hne h1), if_pos h2]
  · rw [if_neg (fun hne => hne h1), if_neg (fun hne => hne h2), if_pos h3]

/-- Witness for C6: the three branches at concrete collaborator
responses (short write; failed end-of-transmission; clean write of a
zero-reply command). -/
theorem sendCommand_aborts_before_read_witness :
    (sendCommand SET_SERIAL_MODE 0 0 ⟨3, 0, fun _ => 0⟩).readAttempted =
      false ∧
    (sendCommand SET_SERIAL_MODE 0 0 ⟨3, 0, fun _ => 0⟩).status =
      TFMP_I2CLENGTH ∧
    (sendCommand SET_SERIAL_MODE 0 0 ⟨5, 2, fun _ => 0⟩).readAttempted =
      false ∧
    (sendCommand SET_SERIAL_MODE 0 0 ⟨5, 2, fun _ => 0⟩).status =
      TFMP_I2CWRITE ∧
    (sendCommand SET_SERIAL_MODE 0 0 ⟨5, 0, fun _ => 0⟩).ret = true ∧
    (sendCommand SET_SERIAL_MODE 0 0 ⟨5, 0, fun _ => 0⟩).readAttempted =
      false := by
  have h1 := (sendCommand_aborts_before_read SET_SERIAL_MODE 0 0
    ⟨3, 0, fun _ => 0⟩).1 (by decide)
  have h2 := (sendCommand_aborts_before_read SET_SERIAL_MODE 0 0
    ⟨5, 2, fun _ => 0⟩).2.1 (by decide) (by decide)
  have h3 := (sendCommand_aborts_before_read SET_SERIAL_MODE 0 0
    ⟨5, 0, fun _ => 0⟩).2.2 (by decide) (by decide) (by decide)
  exact ⟨by rw [h1], by rw [h1], by rw [h2], by rw [h2], by rw [h3],
    by rw [h3]⟩

/-- Claim C7: for every defined command descriptor and every parameter,
the command frame built by sendCommand has the header 0x5A at byte 0,
the descriptor's command length at byte 1, the opcode at byte 2, and at
offset (command length − 1) the sum of all preceding bytes mod 256. -/
theorem buildCmndData_roundTrip (cmnd : Nat) (h : cmnd ∈ definedCommands)
    (param : Nat) :
    (buildCmndData cmnd param).getD 0 0 = 0x5A ∧
    (buildCmndData cmnd param).getD 1 0 = byteOf cmnd 1 ∧
    (buildCmndData cmnd param).getD 2 0 = byteOf cmnd 2 ∧
    (buildCmndData cmnd param).getD (byteOf cmnd 1 - 1) 0 =
      ((buildCmndData cmnd param).take (byteOf cmnd 1 - 1)).sum % 256 := by
  have hm := h
  simp only [definedCommands, List.mem_cons, List.not_mem_nil, or_false]
    at hm
  rcases hm with rfl | rfl | rfl | rfl | rfl | rfl | rfl | rfl | rfl |
    rfl | rfl | rfl | rfl | rfl | rfl | rfl <;>
    norm_num [buildCmndData, byteOf, SET_SERIAL_MODE, SET_I2C_MODE,
      GET_FIRMWARE_VERSION, SET_FRAME_RATE, STANDARD_FORMAT_CM,
      STANDARD_FORMAT_MM, SET_BAUD_RATE, ENABLE_OUTPUT, DISABLE_OUTPUT,
      SET_I2C_ADDRESS, SOFT_RESET, HARD_RESET, SAVE_SETTINGS,
      I2C_FORMAT_CM, I2C_FORMAT_MM, TRIGGER_DETECTION, List.set,
      List.take, List.getD, List.get?]

/-- Witness for C7: the frame built for SET_FRAME_RATE with parameter
1000 (0x03E8). -/
theorem buildCmndData_roundTrip_witness :
    (buildCmndData SET_FRAME_RATE 1000).getD 0 0 = 0x5A ∧
    (buildCmndData SET_FRAME_RATE 1000).getD 1 0 =
      byteOf SET_FRAME_RATE 1 ∧
    (buildCmndData SET_FRAME_RATE 1000).getD 2 0 =
      byteOf SET_FRAME_RATE 2 ∧
    (buildCmndData SET_FRAME_RATE 1000).getD
        (byteOf SET_FRAME_RATE 1 - 1) 0 =
      ((buildCmndData SET_FRAME_RATE 1000).take
        (byteOf SET_FRAME_RATE 1 - 1)).sum % 256 :=
  buildCmndData_roundTrip SET_FRAME_RATE (by decide) 1000

/-- Counterexample to C3 as stated: a successful sendCommand invocation
(clean write of the zero-reply SET_SERIAL_MODE command) performs no
status assignment at all, so the shared status field is not reset to
Ready on entry: a stale Weak value survives the call. -/
theorem sendCommand_no_entry_reset :
    (sendCommand SET_SERIAL_MODE 0 TFMP_WEAK ⟨5, 0, fun _ => 0⟩).writes =
      [] ∧
    (sendCommand SET_SERIAL_MODE 0 TFMP_WEAK ⟨5, 0, fun _ => 0⟩).ret =
      true ∧
    (sendCommand SET_SERIAL_MODE 0 TFMP_WEAK ⟨5, 0, fun _ => 0⟩).status =
      TFMP_WEAK ∧
    TFMP_WEAK ≠ TFMP_READY := by decide

/-- Claim C3 (amended): getData resets the shared status field to Ready
on entry and assigns it at most once more before returning; sendCommand
does not reset status on entry — it assigns status at most once, and
only on failure paths (a successful call leaves status untouched). -/
theorem status_write_discipline (d0 f0 t0 : Int) (genv : GetEnv)
    (cmnd param st0 : Nat) (senv : SendEnv) :
    (getData d0 f0 t0 genv).writes.head? = some TFMP_READY ∧
    (getData d0 f0 t0 genv).writes.length ≤ 2 ∧
    (sendCommand cmnd param st0 senv).writes.length ≤ 1 ∧
    ((sendCommand cmnd param st0 senv).ret = true →
      (sendCommand cmnd param st0 senv).writes = []) := by
  obtain ⟨h1, h2, -, -⟩ := getData_writes_spec d0 f0 t0 genv
  rcases sendCommand_writes_spec cmnd param st0 senv with
    ⟨hw, -, -⟩ | ⟨hw, hr, -⟩
  · exact ⟨h1, h2, by simp [hw], fun _ => hw⟩
  · refine ⟨h1, h2, by simp [hw], fun ht => ?_⟩
    rw [ht] at hr
    cases hr

/-- Witness for C3 (amended) at concrete inputs: a getData run and a
successful sendCommand run. -/
theorem status_write_discipline_witness :
    (getData 0 0 0 ⟨⟨5, 0, fun _ => 0⟩,
        [89, 89, 100, 0, 200, 0, 24, 9, 255]⟩).writes.head? =
      some TFMP_READY ∧
    (sendCommand SET_SERIAL_MODE 0 TFMP_WEAK ⟨5, 0, fun _ => 0⟩).writes =
      [] := by
  have h := status_write_discipline 0 0 0
    ⟨⟨5, 0, fun _ => 0⟩, [89, 89, 100, 0, 200, 0, 24, 9, 255]⟩
    SET_SERIAL_MODE 0 TFMP_WEAK ⟨5, 0, fun _ => 0⟩
  exact ⟨h.1, h.2.2.2 (by decide)⟩

/-- Counterexample to C4 as stated: the frame with raw temperature code
0x0FFF (bytes 0xFF, 0x0F at offsets 6, 7) decodes to 255 degrees, not
−1: (4095 >> 3) − 256 = 511 − 256 = 255. -/
theorem getData_temp_0x0FFF :
    (getData 0 0 0 ⟨⟨5, 0, fun _ => 0⟩,
        [89, 89, 100, 0, 200, 0, 255, 15, 236]⟩).temp = 255 ∧
    frameByte [89, 89, 100, 0, 200, 0, 255, 15, 236] 6 = 0xFF ∧
    frameByte [89, 89, 100, 0, 200, 0, 255, 15, 236] 7 = 0x0F ∧
    frameSum [89, 89, 100, 0, 200, 0, 255, 15, 236] % 256 =
      frameByte [89, 89, 100, 0, 200, 0, 255, 15, 236] 8 ∧
    (255 : Int) ≠ -1 := by decide

/-- Claim C4 (amended): getData converts the raw 16-bit little-endian
temperature code at frame offsets 6-7 by an arithmetic shift right of 3
bits followed by subtracting 256; raw code 0x0800 yields 0, raw code
0x0000 yields −256, and raw code 0x0FFF yields 255. -/
theorem getData_temperature_decode (d0 f0 t0 : Int) (env : GetEnv)
    (hw : env.cmdEnv.writeCount = 5) (he : env.cmdEnv.endResult = 0)
    (hlen : 9 ≤ env.stream.length)
    (hchk : frameSum env.stream % 256 = frameByte env.stream 8) :
    (getData d0 f0 t0 env).temp =
      asr3 (toInt16 (frameByte env.stream 6 +
        frameByte env.stream 7 * 256)) - 256 ∧
    asr3 (toInt16 0x0800) - 256 = 0 ∧
    asr3 (toInt16 0x0000) - 256 = -256 ∧
    asr3 (toInt16 0x0FFF) - 256 = 255 := by
  refine ⟨?_, by decide, by decide, by decide⟩
  simp only [getData, sendCommand_formatCM env.cmdEnv hw he]
  rw [if_neg (by norm_num), if_neg (by simp [TFMP_FRAME_SIZE]; omega),
      if_neg (fun hne => hne hchk)]

/-- Witness for C4 (amended): the fixture frame with raw temperature
code 0x0918 decodes to 35 degrees Celsius. -/
theorem getData_temperature_decode_witness :
    (getData 0 0 0 ⟨⟨5, 0, fun _ => 0⟩,
        [89, 89, 100, 0, 200, 0, 24, 9, 255]⟩).temp = 35 := by
  have h := getData_temperature_decode 0 0 0
    ⟨⟨5, 0, fun _ => 0⟩, [89, 89, 100, 0, 200, 0, 24, 9, 255]⟩
    rfl rfl (by decide) (by decide)
  rw [h.1]; decide

/-- Counterexample to C8 as stated: a checksum-valid SOFT_RESET reply
whose byte at offset 3 is 2 (non-zero) makes sendCommand return true
with no Fail status, because the code tests the byte against 1, not
against zero. -/
theorem sendCommand_reset_reply_two_succeeds :
    (sendCommand SOFT_RESET 0 0
        ⟨4, 0, fun i => [0, 0, 0, 2, 2].getD i 0⟩).ret = true ∧
    (sendCommand SOFT_RESET 0 0
        ⟨4, 0, fun i => [0, 0, 0, 2, 2].getD i 0⟩).writes = [] ∧
    replyByte ⟨4, 0, fun i => [0, 0, 0, 2, 2].getD i 0⟩ 5 3 = 2 ∧
    replyByte ⟨4, 0, fun i => [0, 0, 0, 2, 2].getD i 0⟩ 5 4 =
      replySum ⟨4, 0, fun i => [0, 0, 0, 2, 2].getD i 0⟩ 5 % 256 := by
  decide

/-- Claim C8 (amended): for the SOFT_RESET, HARD_RESET and SAVE_SETTINGS
commands, whenever the checksum-valid reply carries the value 1 at
offset 3, sendCommand sets status to Fail and returns false; for every
other value at offset 3 it returns true. -/
theorem sendCommand_reset_fail_flag (cmnd param st0 : Nat)
    (env : SendEnv)
    (hc : cmnd = SOFT_RESET ∨ cmnd = HARD_RESET ∨ cmnd = SAVE_SETTINGS)
    (hw : env.writeCount = 4) (he : env.endResult = 0)
    (hchk : replyByte env 5 4 = replySum env 5 % 256) :
    (replyByte env 5 3 = 1 →
      (sendCommand cmnd param st0 env).ret = false ∧
      (sendCommand cmnd param st0 env).writes = [TFMP_FAIL] ∧
      (sendCommand cmnd param st0 env).status = TFMP_FAIL) ∧
    (replyByte env 5 3 ≠ 1 →
      (sendCommand cmnd param st0 env).ret = true ∧
      (sendCommand cmnd param st0 env).writes = []) := by
  rcases hc with rfl | rfl | rfl <;>
    (constructor <;> intro h3 <;>
      (simp only [sendCommand, hw, he]
       norm_num [hchk, h3, SOFT_RESET, HARD_RESET, SAVE_SETTINGS,
         GET_FIRMWARE_VERSION, byteOf]))

/-- Witness for C8 (amended): a reply with 1 at offset 3 fails, a reply
with 0 at offset 3 succeeds. -/
theorem sendCommand_reset_fail_flag_witness :
    (sendCommand SOFT_RESET 0 0
        ⟨4, 0, fun i => [0, 0, 0, 1, 1].getD i 0⟩).status = TFMP_FAIL ∧
    (sendCommand SOFT_RESET 0 0
        ⟨4, 0, fun i => [0, 0, 0, 0, 0].getD i 0⟩).ret = true := by
  have h1 := (sendCommand_reset_fail_flag SOFT_RESET 0 0
    ⟨4, 0, fun i => [0, 0, 0, 1, 1].getD i 0⟩ (Or.inl rfl) rfl rfl
    (by decide)).1 (by decide)
  have h2 := (sendCommand_reset_fail_flag SOFT_RESET 0 0
    ⟨4, 0, fun i => [0, 0, 0, 0, 0].getD i 0⟩ (Or.inl rfl) rfl rfl
    (by decide)).2 (by decide)
  exact ⟨h1.2.2, h2.1⟩

/-- Claim C1: for every 9-byte frame that passes the checksum test,
getData classifies the decoded triple with first-match-wins priority
(distance = −1 ⇒ Weak, else flux = −1 ⇒ Strong, else distance = −4 ⇒
Flood, else Ready), returns true iff the status is Ready, and writes
the decoded field values into the output parameters in every case. -/
theorem getData_classification_priority (d0 f0 t0 : Int) (env : GetEnv)
    (hw : env.cmdEnv.writeCount = 5) (he : env.cmdEnv.endResult = 0)
    (hlen : 9 ≤ env.stream.length)
    (hchk : frameSum env.stream % 256 = frameByte env.stream 8) :
    (getData d0 f0 t0 env).dist =
      toInt16 (frameByte env.stream 2 + frameByte env.stream 3 * 256) ∧
    (getData d0 f0 t0 env).flux =
      toInt16 (frameByte env.stream 4 + frameByte env.stream 5 * 256) ∧
    (getData d0 f0 t0 env).temp =
      asr3 (toInt16 (frameByte env.stream 6 +
        frameByte env.stream 7 * 256)) - 256 ∧
    (getData d0 f0 t0 env).status =
      (if toInt16 (frameByte env.stream 2 + frameByte env.stream 3 * 256) =
          -1 then TFMP_WEAK
       else if toInt16 (frameByte env.stream 4 +
          frameByte env.stream 5 * 256) = -1 then TFMP_STRONG
       else if toInt16 (frameByte env.stream 2 +
          frameByte env.stream 3 * 256) = -4 then TFMP_FLOOD
       else TFMP_READY) ∧
    ((getData d0 f0 t0 env).ret = true ↔
      (getData d0 f0 t0 env).status = TFMP_READY) := by
  simp only [getData, sendCommand_formatCM env.cmdEnv hw he]
  rw [if_neg (by norm_num), if_neg (by simp [TFMP_FRAME_SIZE]; omega),
      if_neg (fun hne => hne hchk)]
  refine ⟨rfl, rfl, rfl, rfl, ?_⟩
  split_ifs <;>
    simp_all [TFMP_WEAK, TFMP_STRONG, TFMP_FLOOD, TFMP_READY]

/-- Witness for C1: the fixture frame 59 59 64 00 C8 00 18 09 FF decodes
to distance 100, flux 200, temperature 35, status Ready, return true. -/
theorem getData_classification_priority_witness :
    (getData 0 0 0 ⟨⟨5, 0, fun _ => 0⟩,
        [89, 89, 100, 0, 200, 0, 24, 9, 255]⟩).dist = 100 ∧
    (getData 0 0 0 ⟨⟨5, 0, fun _ => 0⟩,
        [89, 89, 100, 0, 200, 0, 24, 9, 255]⟩).flux = 200 ∧
    (getData 0 0 0 ⟨⟨5, 0, fun _ => 0⟩,
        [89, 89, 100, 0, 200, 0, 24, 9, 255]⟩).temp = 35 ∧
    (getData 0 0 0 ⟨⟨5, 0, fun _ => 0⟩,
        [89, 89, 100, 0, 200, 0, 24, 9, 255]⟩).status = TFMP_READY ∧
    (getData 0 0 0 ⟨⟨5, 0, fun _ => 0⟩,
        [89, 89, 100, 0, 200, 0, 24, 9, 255]⟩).ret = true := by
  obtain ⟨h1, h2, h3, h4, h5⟩ := getData_classification_priority 0 0 0
    ⟨⟨5, 0, fun _ => 0⟩, [89, 89, 100, 0, 200, 0, 24, 9, 255]⟩
    rfl rfl (by decide) (by decide)
  refine ⟨by rw [h1]; decide, by rw [h2]; decide, by rw [h3]; decide,
    by rw [h4]; decide, h5.mpr (by rw [h4]; decide)⟩

/-- Claim C2: getData decodes only frames whose byte 8 equals the sum of
bytes 0..7 mod 256; on a mismatch it sets the Checksum status, returns
false and leaves the output parameters unchanged, and flipping any
single bit of bytes 0..7 of a valid frame produces such a mismatch. -/
theorem getData_checksum_guard (d0 f0 t0 : Int) (env : GetEnv)
    (hw : env.cmdEnv.writeCount = 5) (he : env.cmdEnv.endResult = 0)
    (hlen : 9 ≤ env.stream.length) :
    (frameSum env.stream % 256 ≠ frameByte env.stream 8 →
      getData d0 f0 t0 env =
        ⟨false, [TFMP_READY, TFMP_CHECKSUM], TFMP_CHECKSUM, d0, f0, t0⟩) ∧
    (∀ i b : Nat, i < 8 → b < 8 →
      frameSum env.stream % 256 = frameByte env.stream 8 →
      getData d0 f0 t0
          ⟨env.cmdEnv,
           env.stream.set i (frameByte env.stream i ^^^ 2 ^ b)⟩ =
        ⟨false, [TFMP_READY, TFMP_CHECKSUM], TFMP_CHECKSUM, d0, f0, t0⟩) := by
  refine ⟨getData_of_checksum_fail d0 f0 t0 env hw he hlen, ?_⟩
  intro i b hi hb hchk
  exact getData_of_checksum_fail d0 f0 t0 _ hw he (by simpa using hlen)
    (corrupt_checksum_fails env.stream i b hi hb hlen hchk)

/-- Witness for C2: flipping bit 0 of byte 2 of the valid fixture frame
makes getData fail with the Checksum status and untouched outputs. -/
theorem getData_checksum_guard_witness :
    getData 7 8 9 ⟨⟨5, 0, fun _ => 0⟩,
        ([89, 89, 100, 0, 200, 0, 24, 9, 255] : List Nat).set 2
          (frameByte [89, 89, 100, 0, 200, 0, 24, 9, 255] 2 ^^^ 2 ^ 0)⟩ =
      ⟨false, [TFMP_READY, TFMP_CHECKSUM], TFMP_CHECKSUM, 7, 8, 9⟩ :=
  (getData_checksum_guard 7 8 9
    ⟨⟨5, 0, fun _ => 0⟩, [89, 89, 100, 0, 200, 0, 24, 9, 255]⟩
    rfl rfl (by decide)).2 2 0 (by decide) (by decide) (by decide)

/-- Claim C9: recoverI2CBus toggles the clock line from high to low
exactly 10 times, its final data-line transition is a rise to high while
the clock line is high (the stop/idle condition), and both pins are set
back to input mode before the function returns. -/
theorem recoverI2CBus_pulses_and_idle (dataPin clockPin : Nat)
    (h : dataPin ≠ clockPin) :
    fallingCount (writesTo clockPin (recoverI2CBus dataPin clockPin)) =
      10 ∧
    (dataTrans dataPin clockPin (recoverI2CBus dataPin clockPin)).getLast?
      = some (some false, true, some true) ∧
    lastMode dataPin (recoverI2CBus dataPin clockPin) = some false ∧
    lastMode clockPin (recoverI2CBus dataPin clockPin) = some false := by
  have h' : ¬(clockPin = dataPin) := fun hh => h hh.symm
  refine ⟨?_, ?_, ?_, ?_⟩
  · simp [recoverI2CBus, clockPulses, writesTo, h, h']
    decide
  · simp [dataTrans, recoverI2CBus, clockPulses, dataTransRec, h, h']
  · simp [lastMode, recoverI2CBus, clockPulses, h, h']
  · simp [lastMode, recoverI2CBus, clockPulses, h, h']

/-- Witness for C9 at the concrete pin pair (2, 3). -/
theorem recoverI2CBus_pulses_and_idle_witness :
    fallingCount (writesTo 3 (recoverI2CBus 2 3)) = 10 ∧
    (dataTrans 2 3 (recoverI2CBus 2 3)).getLast? =
      some (some false, true, some true) ∧
    lastMode 2 (recoverI2CBus 2 3) = some false ∧
    lastMode 3 (recoverI2CBus 2 3) = some false :=
  recoverI2CBus_pulses_and_idle 2 3 (by decide)

/-- Claim C10: no public operation ever assigns the Pass value (5) to
the status field: Pass never occurs among the status assignments of
getData or sendCommand, and the status on return is never Pass (for
sendCommand, provided it was not already Pass on entry, since
sendCommand leaves status untouched on success). -/
theorem pass_never_assigned (d0 f0 t0 : Int) (genv : GetEnv)
    (cmnd param st0 : Nat) (senv : SendEnv) :
    TFMP_PASS ∉ (getData d0 f0 t0 genv).writes ∧
    (getData d0 f0 t0 genv).status ≠ TFMP_PASS ∧
    TFMP_PASS ∉ (sendCommand cmnd param st0 senv).writes ∧
    (st0 ≠ TFMP_PASS →
      (sendCommand cmnd param st0 senv).status ≠ TFMP_PASS) := by
  obtain ⟨-, -, hs, hm⟩ := getData_writes_spec d0 f0 t0 genv
  rcases sendCommand_writes_spec cmnd param st0 senv with
    ⟨hw, hst, -⟩ | ⟨hw, -, hmem⟩
  · exact ⟨hm, hs, by simp [hw], fun h0 => by rw [hst]; exact h0⟩
  · simp only [TFMP_CHECKSUM, TFMP_FAIL, TFMP_I2CWRITE, TFMP_I2CLENGTH,
      List.mem_cons, List.not_mem_nil, or_false] at hmem
    refine ⟨hm, hs, ?_, fun h0 => ?_⟩ <;>
      rcases hmem with hc | hc | hc | hc <;>
        simp [hw, hc, TFMP_PASS]

/-- Witness for C10 at concrete inputs. -/
theorem pass_never_assigned_witness :
    (getData 0 0 0 ⟨⟨5, 0, fun _ => 0⟩,
        [89, 89, 100, 0, 200, 0, 24, 9, 255]⟩).status ≠ TFMP_PASS ∧
    (sendCommand SET_SERIAL_MODE 0 0 ⟨5, 0, fun _ => 0⟩).status ≠
      TFMP_PASS := by
  have h := pass_never_assigned 0 0 0
    ⟨⟨5, 0, fun _ => 0⟩, [89, 89, 100, 0, 200, 0, 24, 9, 255]⟩
    SET_SERIAL_MODE 0 0 ⟨5, 0, fun _ => 0⟩
  exact ⟨h.2.1, h.2.2.2 (by decide)⟩

end TFMPI2C
